import Mathlib

/-!
Verification of the update-notification flow of an Electron application
(`src/main/index.ts`, `src/preload/index.ts`, renderer `Versions` component,
and the dev-mode simulator variant of the main process).

The embedding is shallow: each TypeScript function that the claims touch is
translated into an executable Lean definition.  Events sent from the main
process to the renderer are pairs of a channel name and a payload; IPC
invoke handlers become pure functions from their inputs (including the
behaviour of the external `electron-updater` library, which is a parameter)
to a result value plus the list of events they send directly.
-/

/-- A JavaScript `Error` as far as the code observes it: only `message`. -/
structure JsError where
  message : String
deriving DecidableEq, Repr

/-- Update metadata produced by the updater library or the dev simulator
(`version`, optional `releaseName`). -/
structure UpdateInfo where
  version : String
  releaseName : Option String
deriving DecidableEq, Repr

/-- Payload of an IPC event sent from main to renderer.  `errObj` is
representable so we can state that a raw `Error` object is never the
payload actually sent. -/
inductive Payload where
  | empty
  | info (i : UpdateInfo)
  | progress (percent : Nat)
  | str (s : String)
  | errObj (e : JsError)
deriving DecidableEq, Repr

/-- An event crossing the process boundary: channel name plus payload. -/
abbrev Sent := String × Payload

/-- The `validChannels` allow-list from `src/preload/index.ts` (it appears
verbatim in both `on` and `once`). -/
def validChannels : List String :=
  ["checking-for-update", "update-available", "update-not-available",
   "download-progress", "update-downloaded", "update-error"]

/-- A listener registered with the renderer-side `ipcRenderer`: an opaque
identity plus whether it was registered with `once`. -/
structure Listener where
  id : Nat
  once : Bool
deriving DecidableEq, Repr

/-- The renderer-side `ipcRenderer` listener registry: listeners keyed by
channel, in registration order. -/
structure RendererIpc where
  listeners : List (String × Listener)
deriving DecidableEq, Repr

/-- `api.updates.on` from `src/preload/index.ts`: registers a persistent
listener on the underlying `ipcRenderer` only when the channel is in
`validChannels`; otherwise the registry is untouched. -/
def bridgeOn (channel : String) (lid : Nat) (st : RendererIpc) : RendererIpc :=
  if validChannels.contains channel then
    { st with listeners := st.listeners ++ [(channel, ⟨lid, false⟩)] }
  else st

/-- `api.updates.once` from `src/preload/index.ts`: same allow-list guard,
registers a one-shot listener. -/
def bridgeOnce (channel : String) (lid : Nat) (st : RendererIpc) : RendererIpc :=
  if validChannels.contains channel then
    { st with listeners := st.listeners ++ [(channel, ⟨lid, true⟩)] }
  else st

/-- `api.updates.removeAllListeners` from `src/preload/index.ts`: calls
`ipcRenderer.removeAllListeners(channel)` directly — the source contains no
allow-list check on this path. -/
def bridgeRemoveAllListeners (channel : String) (st : RendererIpc) : RendererIpc :=
  { st with listeners := st.listeners.filter (fun p => p.1 ≠ channel) }

/-- Delivering one event on a channel: the ids of the listeners invoked (in
registration order) and the registry afterwards (`once` listeners for that
channel are consumed). -/
def emitOn (channel : String) (st : RendererIpc) : List Nat × RendererIpc :=
  ((st.listeners.filter (fun p => p.1 = channel)).map (fun p => p.2.id),
   { st with listeners := st.listeners.filter (fun p => ¬ (p.1 = channel ∧ p.2.once = true)) })

/-- All listener invocations produced by a sequence of channel emissions. -/
def runEmits (st : RendererIpc) : List String → List Nat
  | [] => []
  | ch :: rest =>
      (emitOn ch st).1 ++ runEmits (emitOn ch st).2 rest

/-- The ids currently registered in the registry. -/
def listenerIds (st : RendererIpc) : List Nat :=
  st.listeners.map (fun p => p.2.id)

/-- The seven-state update lifecycle from the specification.  The main
process in the source keeps no such state itself; the handlers below take
the conceptual state as a parameter precisely to express that they never
consult it. -/
inductive UpdateStatus where
  | idle
  | checking
  | available
  | notAvailable
  | downloading
  | downloaded
  | error
deriving DecidableEq, Repr

/-- A callback delivered by the `electron-updater` library to the handlers
registered with `autoUpdater.on` in `src/main/index.ts`. -/
inductive LibCallback where
  | checkingForUpdate
  | updateAvailable (info : UpdateInfo)
  | updateNotAvailable (info : UpdateInfo)
  | downloadProgress (percent : Nat)
  | updateDownloaded (info : UpdateInfo)
  | error (err : Option JsError)
deriving DecidableEq, Repr

/-- The channel each `autoUpdater.on` handler sends on (the string literals
in `src/main/index.ts`). -/
def cbChannel : LibCallback → String
  | .checkingForUpdate => "checking-for-update"
  | .updateAvailable _ => "update-available"
  | .updateNotAvailable _ => "update-not-available"
  | .downloadProgress _ => "download-progress"
  | .updateDownloaded _ => "update-downloaded"
  | .error _ => "update-error"

/-- `err == null ? 'unknown' : err.message` from the `error` handler in
`src/main/index.ts` (JS `== null` also matches `undefined`, so `Option`
covers both). -/
def errorText : Option JsError → String
  | none => "unknown"
  | some e => e.message

/-- The six `autoUpdater.on` handlers of `src/main/index.ts`: each does one
`mainWindow?.webContents.send(...)`.  `hasWindow` models whether
`mainWindow` is non-null (the optional chaining makes the send a no-op
otherwise). -/
def forwardCallback (hasWindow : Bool) (cb : LibCallback) : List Sent :=
  if hasWindow then
    match cb with
    | .checkingForUpdate => [("checking-for-update", .empty)]
    | .updateAvailable i => [("update-available", .info i)]
    | .updateNotAvailable i => [("update-not-available", .info i)]
    | .downloadProgress p => [("download-progress", .progress p)]
    | .updateDownloaded i => [("update-downloaded", .info i)]
    | .error e => [("update-error", .str (errorText e))]
  else []

/-- Result of an `ipcMain.handle('update-check')` / `('update-download')`
invocation as resolved to the renderer: the library's value, the
`{error: message}` object built in the `catch`, or the dev branch's
`{simulated: true}`. -/
inductive InvokeResult (α : Type) where
  | value (r : α)
  | errorPayload (msg : String)
  | simulated
deriving DecidableEq, Repr

/-- Result of `ipcMain.handle('update-install')`: `{ok: true}` or
`{error: message}`. -/
inductive InstallResult where
  | okPayload
  | errorPayload (msg : String)
deriving DecidableEq, Repr

/-- The events the dev branch of `update-check` sends: `checking-for-update`
immediately, then (after the 800 ms timeout) `update-available` with
`version: app.getVersion() + '-dev'` and
`releaseName: 'dev-simulated-' + app.getVersion()`. -/
def devCheckEvents (appVersion : String) : List Sent :=
  [("checking-for-update", .empty),
   ("update-available",
    .info ⟨appVersion ++ "-dev", some ("dev-simulated-" ++ appVersion)⟩)]

/-- The `setInterval` body of the dev branch of `update-download`:
`pct += increment; if (pct >= 100) pct = 100; send('download-progress',
{percent: pct}); if (pct >= 100) { stop; send('update-downloaded',
{version: app.getVersion() + '-dev'}) }`.  `incs` is the stream of values
drawn as `Math.floor(Math.random() * 20) + 5` (each lies in `[5, 24]`);
the timer in the source never runs out of random draws, so theorems assume
the list is long enough to reach 100. -/
def simDownloadSteps (appVersion : String) (pct : Nat) : List Nat → List Sent
  | [] => []
  | inc :: rest =>
      let p0 := pct + inc
      let p := if 100 ≤ p0 then 100 else p0
      if 100 ≤ p then
        [("download-progress", .progress p),
         ("update-downloaded", .info ⟨appVersion ++ "-dev", none⟩)]
      else
        ("download-progress", .progress p) :: simDownloadSteps appVersion p rest

/-- `ipcMain.handle('update-check')` from the dev-simulator variant of the
main process (`src/unnamed/part_000`; the `src/main/index.ts` variant is
the `isPackaged = true` branch).  `lib` is the outcome of
`autoUpdater.checkForUpdates()` — a value, or a thrown error caught and
turned into `{error: message}`.  The handler consults no update state: `st`
records the conceptual machine state at the call and is unused, mirroring
the absence of any state check in the source. -/
def updateCheckHandler {α : Type} (st : UpdateStatus) (isPackaged : Bool)
    (appVersion : String) (lib : Except String α) : InvokeResult α × List Sent :=
  if isPackaged = false then
    (.simulated, devCheckEvents appVersion)
  else
    match lib with
    | .ok r => (.value r, [])
    | .error m => (.errorPayload m, [])

/-- `ipcMain.handle('update-download')` from the dev-simulator variant
(`src/unnamed/part_000`).  `incs` is the random-increment stream of the dev
branch; `lib` is the outcome of `autoUpdater.downloadUpdate()`.  As with
`update-check`, the `st` parameter is unused because the source performs no
state check. -/
def updateDownloadHandler {α : Type} (st : UpdateStatus) (isPackaged : Bool)
    (appVersion : String) (incs : List Nat) (lib : Except String α) :
    InvokeResult α × List Sent :=
  if isPackaged = false then
    (.simulated, simDownloadSteps appVersion 0 incs)
  else
    match lib with
    | .ok r => (.value r, [])
    | .error m => (.errorPayload m, [])

/-- `ipcMain.handle('update-install')` (identical in both main-process
variants): `try { autoUpdater.quitAndInstall(); return {ok: true} } catch
{ return {error: message} }`.  `quitThrows` is whether the external
`quitAndInstall` call throws (and with what message); the returned `Bool`
records that `quitAndInstall` was invoked — which happens on every path.
`st` is the conceptual machine state and is unused by the source. -/
def updateInstallHandler (st : UpdateStatus) (quitThrows : Option String) :
    InstallResult × Bool :=
  match quitThrows with
  | none => (.okPayload, true)
  | some m => (.errorPayload m, true)

/-- The renderer's local state in the `Versions` component (both observed
variants declare the same `useState` fields). -/
structure RenderState where
  appVersion : Option String
  availableVersion : Option String
  updateAvailable : Bool
  downloadProgress : Option Nat
  downloaded : Bool
  checking : Bool
  notAvailableMessage : Option String
deriving DecidableEq, Repr

/-- The initial `useState` values of the `Versions` component. -/
def initialRenderState : RenderState :=
  { appVersion := none, availableVersion := none, updateAvailable := false,
    downloadProgress := none, downloaded := false, checking := false,
    notAvailableMessage := none }

/-- `(info as any)?.version ?? null` as the renderer reads payloads. -/
def payloadVersion : Payload → Option String
  | .info i => some i.version
  | _ => none

/-- `(progress as any)?.percent`, falling through to `null` when no numeric
percent is present. -/
def payloadPercent : Payload → Option Nat
  | .progress p => some p
  | _ => none

/-- The six `window.api.updates.on` handlers registered by the `Versions`
component, as a transition on its local state keyed by channel name. -/
def applyEvent (s : RenderState) (e : Sent) : RenderState :=
  if e.1 = "checking-for-update" then
    { s with checking := true, notAvailableMessage := none }
  else if e.1 = "update-available" then
    { s with checking := false, updateAvailable := true,
             availableVersion := payloadVersion e.2 }
  else if e.1 = "update-not-available" then
    { s with checking := false, updateAvailable := false,
             notAvailableMessage := some "No updates are available" }
  else if e.1 = "download-progress" then
    { s with downloadProgress := payloadPercent e.2 }
  else if e.1 = "update-downloaded" then
    { s with downloaded := true, downloadProgress := some 100,
             availableVersion :=
               match payloadVersion e.2 with
               | some v => some v
               | none => s.availableVersion }
  else if e.1 = "update-error" then
    { s with checking := false }
  else s

/-- The JSX guard `updateAvailable && !downloaded` in front of the
Download-action block. -/
def showDownloadAction (s : RenderState) : Bool :=
  s.updateAvailable && !s.downloaded

/-- The JSX guard `downloaded` in front of the Install-and-Relaunch block. -/
def showInstallAction (s : RenderState) : Bool :=
  s.downloaded

/-- The `disabled={checking}` attribute of the Check button. -/
def checkButtonDisabled (s : RenderState) : Bool :=
  s.checking

/-! ## Claims -/

/-- C1 counterexample: the claim says `removeAllListeners` silently ignores
channels outside the allow-list, but the source forwards the removal to
`ipcRenderer` unconditionally: with a listener registered on the
non-allow-listed channel `"internal-channel"`, the call removes it. -/
theorem c1_counterexample :
    validChannels.contains "internal-channel" = false ∧
    bridgeRemoveAllListeners "internal-channel"
        { listeners := [("internal-channel", { id := 0, once := false })] }
      ≠ { listeners := [("internal-channel", { id := 0, once := false })] } := by
  constructor
  · decide
  · decide

/-- C1 (amended): `on` and `once` silently ignore any channel outside the
allow-list (no registration happens), but `removeAllListeners` performs the
removal on the underlying IPC for every channel name, allow-listed or not. -/
theorem c1_bridge_allowlist (ch : String) (lid : Nat) (st : RendererIpc)
    (h : validChannels.contains ch = false) :
    bridgeOn ch lid st = st ∧ bridgeOnce ch lid st = st ∧
    (bridgeRemoveAllListeners ch st).listeners
      = st.listeners.filter (fun p => p.1 ≠ ch) := by
  have hmem : ch ∉ validChannels := by simpa using h
  refine ⟨?_, ?_, rfl⟩ <;> simp [bridgeOn, bridgeOnce, hmem]

/-- C1 witness: the amended theorem applied at the concrete channel
`"internal-channel"`. -/
theorem c1_witness :
    validChannels.contains "internal-channel" = false ∧
    (bridgeOn "internal-channel" 3 { listeners := [] } = { listeners := [] } ∧
     bridgeOnce "internal-channel" 3 { listeners := [] } = { listeners := [] } ∧
     (bridgeRemoveAllListeners "internal-channel"
        (RendererIpc.mk [])).listeners
       = (RendererIpc.mk []).listeners.filter (fun p => p.1 ≠ "internal-channel")) :=
  ⟨by decide, c1_bridge_allowlist "internal-channel" 3 { listeners := [] } (by decide)⟩

/-- Invoked listener ids always come from the registry, and emissions never
add registrations, so an id absent from the registry is never invoked. -/
theorem not_mem_runEmits (lid : Nat) :
    ∀ (evs : List String) (st : RendererIpc),
      lid ∉ listenerIds st → lid ∉ runEmits st evs := by
  intro evs
  induction evs with
  | nil =>
      intro st _
      simp [runEmits]
  | cons ch rest ih =>
      intro st h
      simp only [runEmits, List.mem_append]
      push_neg
      constructor
      · intro hmem
        apply h
        simp only [emitOn, List.mem_map] at hmem
        obtain ⟨p, hp, hpe⟩ := hmem
        have hpl : p ∈ st.listeners := List.mem_of_mem_filter hp
        simp only [listenerIds, List.mem_map]
        exact ⟨p, hpl, hpe⟩
      · apply ih
        intro hmem
        apply h
        simp only [emitOn, listenerIds, List.mem_map] at hmem ⊢
        obtain ⟨p, hp, hpe⟩ := hmem
        exact ⟨p, List.mem_of_mem_filter hp, hpe⟩

/-- C8: a listener handed to the Bridge's `on` or `once` with a channel
outside the allow-list is never registered, so no sequence of emissions on
any channels ever invokes it. -/
theorem c8_invalid_channel_never_invoked
    (ch : String) (lid : Nat) (st : RendererIpc) (evs : List String)
    (hch : validChannels.contains ch = false)
    (hfresh : lid ∉ listenerIds st) :
    lid ∉ runEmits (bridgeOn ch lid st) evs ∧
    lid ∉ runEmits (bridgeOnce ch lid st) evs := by
  have hmem : ch ∉ validChannels := by simpa using hch
  have hon : bridgeOn ch lid st = st := by simp [bridgeOn, hmem]
  have honce : bridgeOnce ch lid st = st := by simp [bridgeOnce, hmem]
  rw [hon, honce]
  exact ⟨not_mem_runEmits lid evs st hfresh, not_mem_runEmits lid evs st hfresh⟩

/-- C8 witness: concrete channel `"evil"`, listener id 7, empty registry,
and traffic that includes the very channel subscribed to. -/
theorem c8_witness :
    validChannels.contains "evil" = false ∧
    (7 : Nat) ∉ listenerIds { listeners := [] } ∧
    ((7 : Nat) ∉ runEmits (bridgeOn "evil" 7 { listeners := [] })
        ["evil", "update-available"] ∧
     (7 : Nat) ∉ runEmits (bridgeOnce "evil" 7 { listeners := [] })
        ["evil", "update-available"]) :=
  ⟨by decide, by decide,
   c8_invalid_channel_never_invoked "evil" 7 { listeners := [] }
     ["evil", "update-available"] (by decide) (by decide)⟩

/-- C2 counterexample: invoked in state `idle` (not `downloaded`) with a
library whose `quitAndInstall` returns normally, `update-install` resolves
`{ok: true}` — not a structured error — and `quitAndInstall` is invoked. -/
theorem c2_counterexample :
    (updateInstallHandler UpdateStatus.idle none).1 = InstallResult.okPayload ∧
    (updateInstallHandler UpdateStatus.idle none).2 = true := by
  exact ⟨rfl, rfl⟩

/-- C2 (amended): `update-install` invokes `quitAndInstall` on every call in
every state; it resolves `{ok: true}` when that call returns and
`{error: message}` when it throws.  The handler performs no state check:
its behaviour in any state equals its behaviour in `downloaded`. -/
theorem c2_install_amended (st : UpdateStatus) (qb : Option String) :
    (updateInstallHandler st qb).2 = true ∧
    updateInstallHandler st qb = updateInstallHandler UpdateStatus.downloaded qb ∧
    (updateInstallHandler st qb).1
      = (match qb with
         | none => InstallResult.okPayload
         | some m => InstallResult.errorPayload m) := by
  cases qb <;> exact ⟨rfl, rfl, rfl⟩

/-- C3 counterexample: in dev mode, `update-download` invoked in state
`idle` (not `available`) resolves `{simulated: true}` — not a structured
error — and emits a `download-progress` sequence (two samples here). -/
theorem c3_counterexample :
    (updateDownloadHandler UpdateStatus.idle false "1.0.0" [60, 60]
        (Except.ok (0 : Nat))).1 = InvokeResult.simulated ∧
    ((updateDownloadHandler UpdateStatus.idle false "1.0.0" [60, 60]
        (Except.ok (0 : Nat))).2.countP
      (fun e => e.1 == "download-progress")) = 2 := by
  exact ⟨rfl, rfl⟩

/-- C3 (amended): in packaged mode `update-download` resolves the library's
value or `{error: message}` and sends nothing itself; in dev mode it always
resolves `{simulated: true}` and starts the simulated progress sequence.
Neither branch consults the update state: the behaviour in any state equals
the behaviour in `available`. -/
theorem c3_download_amended {α : Type} (st : UpdateStatus) (v : String)
    (incs : List Nat) (lib : Except String α) :
    updateDownloadHandler st true v incs lib
      = ((match lib with
          | .ok r => InvokeResult.value r
          | .error m => InvokeResult.errorPayload m), []) ∧
    updateDownloadHandler st false v incs lib
      = (InvokeResult.simulated, simDownloadSteps v 0 incs) ∧
    updateDownloadHandler st false v incs lib
      = updateDownloadHandler UpdateStatus.available false v incs lib := by
  cases lib <;> exact ⟨rfl, rfl, rfl⟩

/-- C4: while the main window exists, each updater-library callback is
forwarded as exactly one event (a singleton send) on its corresponding
channel — never zero, never more than one. -/
theorem c4_forward_exactly_one (hw : Bool) (cb : LibCallback) (h : hw = true) :
    ∃ p : Payload, forwardCallback hw cb = [(cbChannel cb, p)] := by
  subst h
  cases cb <;> exact ⟨_, rfl⟩

/-- C4 witness: the `checking-for-update` callback with the window present. -/
theorem c4_witness :
    true = true ∧
    ∃ p : Payload,
      forwardCallback true LibCallback.checkingForUpdate
        = [(cbChannel LibCallback.checkingForUpdate, p)] :=
  ⟨rfl, c4_forward_exactly_one true LibCallback.checkingForUpdate rfl⟩

/-- C5 counterexample: in dev mode, a first `update-check` (from `idle`)
and a second one issued while the machine is `checking` together forward
`checking-for-update` twice — the second request does cause a second
forwarding, because the dev branch sends unconditionally. -/
theorem c5_counterexample :
    (((updateCheckHandler UpdateStatus.idle false "1.0.0"
          (Except.ok (0 : Nat))).2
        ++ (updateCheckHandler UpdateStatus.checking false "1.0.0"
          (Except.ok (0 : Nat))).2).countP
      (fun e => e.1 == "checking-for-update")) = 2 := by
  rfl

/-- C5 (amended): in dev mode every `update-check` invocation forwards
exactly one `checking-for-update` event, regardless of the current state —
so repeated checks duplicate the forwarding, one event per request.  In
packaged mode the handler forwards nothing itself (deduplication is the
external library's, not this code's). -/
theorem c5_check_forward_amended {α : Type} (st : UpdateStatus) (v : String)
    (lib : Except String α) :
    ((updateCheckHandler st false v lib).2.countP
      (fun e => e.1 == "checking-for-update")) = 1 ∧
    (updateCheckHandler st true v lib).2 = [] := by
  constructor
  · rfl
  · cases lib <;> rfl

/-- Whether an invoke result has one of the two shapes claim C7 allows:
the library's value or the `{error: message}` object. -/
def isLibValueOrError {α : Type} : InvokeResult α → Bool
  | .value _ => true
  | .errorPayload _ => true
  | .simulated => false

/-- C7 counterexample: in dev mode `update-check` resolves the third shape
`{simulated: true}` — neither the library's result nor `{error: message}`. -/
theorem c7_counterexample :
    isLibValueOrError
      (updateCheckHandler UpdateStatus.idle false "1.0.0"
        (Except.ok (0 : Nat))).1 = false := by
  rfl

/-- C7 (amended): `update-check` always resolves a value and never throws
across the boundary: in packaged mode the library's result when the check
succeeds and `{error: message}` when it throws, and in dev mode
`{simulated: true}`.  (Totality of the handler is the never-throws part.) -/
theorem c7_check_result_amended {α : Type} (st : UpdateStatus) (p : Bool)
    (v : String) (lib : Except String α) :
    (updateCheckHandler st p v lib).1
      = (if p then
           (match lib with
            | .ok r => InvokeResult.value r
            | .error m => InvokeResult.errorPayload m)
         else InvokeResult.simulated) := by
  cases p <;> cases lib <;> rfl

/-- C10: the payload forwarded on `update-error` is always the string
`errorText err` — `"unknown"` when the library's error is null/undefined
and the error's `message` otherwise — and never the raw `Error` object. -/
theorem c10_error_payload_string (e : Option JsError) :
    forwardCallback true (LibCallback.error e)
      = [("update-error", Payload.str (errorText e))] ∧
    errorText none = "unknown" ∧
    (∀ je : JsError, errorText (some je) = je.message) ∧
    (∀ je : JsError, Payload.str (errorText e) ≠ Payload.errObj je) := by
  refine ⟨rfl, rfl, fun je => rfl, fun je h => ?_⟩
  cases h

/-- C9: in every renderer state reachable from the initial state by any
sequence of forwarded events, the Download action is rendered iff
`updateAvailable` is true and `downloaded` is false, the
Install-and-Relaunch action is rendered iff `downloaded` is true, and the
Check button is disabled iff `checking` is true. -/
theorem c9_render_guards (es : List Sent) :
    ((showDownloadAction (es.foldl applyEvent initialRenderState) = true)
       ↔ ((es.foldl applyEvent initialRenderState).updateAvailable = true
           ∧ (es.foldl applyEvent initialRenderState).downloaded = false)) ∧
    ((showInstallAction (es.foldl applyEvent initialRenderState) = true)
       ↔ (es.foldl applyEvent initialRenderState).downloaded = true) ∧
    ((checkButtonDisabled (es.foldl applyEvent initialRenderState) = true)
       ↔ (es.foldl applyEvent initialRenderState).checking = true) := by
  refine ⟨?_, Iff.rfl, Iff.rfl⟩
  simp [showDownloadAction, Bool.and_eq_true, Bool.not_eq_true']

/-- Shape of the simulated download: as long as every random increment is at
least 5 (as `Math.floor(Math.random()*20)+5` guarantees) and the stream is
long enough to reach 100, the emitted events are a nonempty non-decreasing
run of `download-progress` samples ending at 100 followed by one
`update-downloaded` carrying the `-dev` version. -/
theorem simDownloadSteps_shape (v : String) :
    ∀ (incs : List Nat) (pct : Nat), pct < 100 → (∀ i ∈ incs, 5 ≤ i) →
      100 ≤ pct + 5 * incs.length →
      ∃ ps : List Nat,
        simDownloadSteps v pct incs
          = ps.map (fun p => ("download-progress", Payload.progress p))
            ++ [("update-downloaded", Payload.info ⟨v ++ "-dev", none⟩)]
        ∧ ps ≠ []
        ∧ List.Chain' (· ≤ ·) (pct :: ps)
        ∧ ps.getLast? = some 100 := by
  intro incs
  induction incs with
  | nil =>
      intro pct hlt _ hlen
      simp only [List.length_nil, Nat.mul_zero, Nat.add_zero] at hlen
      omega
  | cons inc rest ih =>
      intro pct hlt hall hlen
      have hinc : 5 ≤ inc := hall inc (List.mem_cons_self _ _)
      by_cases hc : 100 ≤ pct + inc
      · refine ⟨[100], ?_, by simp, ?_, rfl⟩
        · simp [simDownloadSteps, hc]
        · exact List.chain'_cons.mpr ⟨by omega, List.chain'_singleton 100⟩
      · have hrest : ∀ i ∈ rest, 5 ≤ i := fun i hi => hall i (List.mem_cons_of_mem _ hi)
        have hlen' : 100 ≤ (pct + inc) + 5 * rest.length := by
          simp only [List.length_cons] at hlen
          omega
        obtain ⟨ps, hshape, hne, hchain, hlast⟩ :=
          ih (pct + inc) (by omega) hrest hlen'
        refine ⟨(pct + inc) :: ps, ?_, by simp, ?_, ?_⟩
        · have hstep : simDownloadSteps v pct (inc :: rest)
              = ("download-progress", Payload.progress (pct + inc))
                  :: simDownloadSteps v (pct + inc) rest := by
            simp [simDownloadSteps, hc]
          rw [hstep, hshape]
          simp
        · exact List.chain'_cons.mpr ⟨by omega, hchain⟩
        · cases ps with
          | nil => exact absurd rfl hne
          | cons a t => simpa [List.getLast?_cons_cons] using hlast

/-- C6: in dev mode, a check followed by a download forwards exactly one
`checking-for-update`, then one `update-available` whose version ends with
`"-dev"`, then one or more `download-progress` samples with non-decreasing
percent ending at 100, then one `update-downloaded` whose version ends with
`"-dev"` — for any random-increment stream the simulator can draw (each
increment at least 5) that is long enough to reach 100. -/
theorem c6_dev_flow {α β : Type} (v : String) (st st2 : UpdateStatus)
    (incs : List Nat) (lib : Except String α) (lib2 : Except String β)
    (hall : ∀ i ∈ incs, 5 ≤ i) (hlen : 100 ≤ 5 * incs.length) :
    ∃ ps : List Nat,
      (updateCheckHandler st false v lib).2
          ++ (updateDownloadHandler st2 false v incs lib2).2
        = ("checking-for-update", Payload.empty)
            :: ("update-available",
                Payload.info ⟨v ++ "-dev", some ("dev-simulated-" ++ v)⟩)
            :: (ps.map (fun p => ("download-progress", Payload.progress p))
                ++ [("update-downloaded", Payload.info ⟨v ++ "-dev", none⟩)])
      ∧ ps ≠ []
      ∧ List.Chain' (· ≤ ·) ps
      ∧ ps.getLast? = some 100
      ∧ "-dev".data <:+ (v ++ "-dev").data := by
  obtain ⟨ps, hshape, hne, hchain, hlast⟩ :=
    simDownloadSteps_shape v incs 0 (by omega) hall (by omega)
  refine ⟨ps, ?_, hne, hchain.tail, hlast, ?_⟩
  · have hcheck : (updateCheckHandler st false v lib).2 = devCheckEvents v := rfl
    have hdl : (updateDownloadHandler st2 false v incs lib2).2
        = simDownloadSteps v 0 incs := rfl
    rw [hcheck, hdl, hshape]
    rfl
  · rw [String.data_append]
    exact List.suffix_append _ _

/-- C6 witness: version `"1.2.3"` and twenty increments of 5 (the smallest
draw the simulator can make), reaching 100 exactly. -/
theorem c6_witness :
    (∀ i ∈ List.replicate 20 5, 5 ≤ i) ∧
    100 ≤ 5 * (List.replicate 20 5).length ∧
    ∃ ps : List Nat,
      (updateCheckHandler UpdateStatus.idle false "1.2.3"
            (Except.ok (0 : Nat))).2
          ++ (updateDownloadHandler UpdateStatus.available false "1.2.3"
            (List.replicate 20 5) (Except.ok (0 : Nat))).2
        = ("checking-for-update", Payload.empty)
            :: ("update-available",
                Payload.info ⟨"1.2.3" ++ "-dev", some ("dev-simulated-" ++ "1.2.3")⟩)
            :: (ps.map (fun p => ("download-progress", Payload.progress p))
                ++ [("update-downloaded", Payload.info ⟨"1.2.3" ++ "-dev", none⟩)])
      ∧ ps ≠ []
      ∧ List.Chain' (· ≤ ·) ps
      ∧ ps.getLast? = some 100
      ∧ "-dev".data <:+ ("1.2.3" ++ "-dev").data :=
  ⟨by decide, by decide,
   c6_dev_flow "1.2.3" UpdateStatus.idle UpdateStatus.available
     (List.replicate 20 5) (Except.ok (0 : Nat)) (Except.ok (0 : Nat))
     (by decide) (by decide)⟩
